import Mathlib

/-!
Shallow embedding of `src/lanarky/responses/streaming.py` (class
`StreamingResponse`), the streaming adapter between a langchain chain and an
ASGI transport.

Modelling choices:
  * ASGI frames sent over the transport are an inductive `Frame`; the byte
    serialisation performed by the external `ensure_bytes` is kept symbolic
    (`Body.sse` holds the `ServerSentEvent` structure instead of its bytes).
  * A chain executor is characterised by its observable behaviour on the
    transport: the list of body frames its callback pushed before it returned
    or raised, plus its result (`Except` models Python raising).
  * `stream_response` returns `Except eps _`: an `Except.error` result would
    mean an exception escaped to the caller; the `except Exception` clause of
    the source is embedded by producing `Except.ok` in the error branch.
  * Python `dict.update` / key lookup on keyword-argument dictionaries are
    embedded as `dictSet` / `dictLookup` on association lists with unique keys.
-/

namespace Lanarky

/-- Payload of the hardcoded error event:
dict(status_code=500, detail="Internal Server Error"). -/
structure ErrorData where
  status_code : Nat
  detail : String
deriving DecidableEq, Repr

/-- sse_starlette.ServerSentEvent, restricted to the fields the source sets. -/
structure ServerSentEvent where
  data : ErrorData
  event : String
deriving DecidableEq, Repr

/-- Body of an http.response.body frame: raw bytes (token payloads, or the
empty terminating body) or a serialised server-sent event. -/
inductive Body where
  | raw (s : String)
  | sse (ev : ServerSentEvent)
deriving DecidableEq, Repr

/-- ASGI frames sent through the transport handle. -/
inductive Frame where
  | start (status : Nat) (headers : List (String × String))
  | body (b : Body) (more_body : Bool)
deriving DecidableEq, Repr

/-- The error chunk built in the except branch of stream_response. -/
def errorChunk : ServerSentEvent :=
  { data := { status_code := 500, detail := "Internal Server Error" }
  , event := "error" }

/-- The terminating frame: empty body, more_body = false. -/
def isTerminator : Frame → Bool
  | Frame.body b more => !more && (b == Body.raw "")
  | _ => false

/-- An http.response.start frame. -/
def isStartFrame : Frame → Bool
  | Frame.start _ _ => true
  | _ => false

/-- A body carrying an event tagged with the "error" event type. -/
def isErrorBody : Body → Bool
  | Body.sse ev => ev.event == "error"
  | _ => false

/-- An error-event body frame with more_body = true. -/
def isErrorEventFrame : Frame → Bool
  | Frame.body b more => more && isErrorBody b
  | _ => false

/-- Modelled from the spec: the callback registry (`lanarky.callbacks`, absent
from src/) pushes intermediate token frames to the transport, i.e. body frames
with more_body = true that are not error events ("chain pushes intermediate
tokens directly to the transport via callback"; error events are produced only
by the except branch of stream_response). -/
def isTokenFrame : Frame → Bool
  | Frame.body b more => more && !(isErrorBody b)
  | _ => false

/-- Python dict assignment d[k] = v on an association list with unique keys:
replace the binding in place if the key is present, append it otherwise. -/
def dictSet {V : Type} : List (String × V) → String → V → List (String × V)
  | [], k, v => [(k, v)]
  | (k', v') :: rest, k, v =>
      if k' = k then (k, v) :: rest else (k', v') :: dictSet rest k v

/-- Python dict lookup d.get(k) on an association list. -/
def dictLookup {V : Type} : List (String × V) → String → Option V
  | [], _ => none
  | (k', v') :: rest, k => if k' = k then some v' else dictLookup rest k

/-- Outputs of chain.acall: a mapping of output keys to values. -/
abbrev Outputs (A : Type) := List (String × A)

/-- Values stored into the background task's keyword arguments: the outputs
mapping under "outputs", or the raised exception under "error". -/
inductive KwVal (A E : Type) where
  | outputs (m : Outputs A)
  | error (e : E)
deriving DecidableEq, Repr

/-- Keyword arguments of a background task. -/
abbrev Kwargs (A E : Type) := List (String × KwVal A E)

/-- starlette.background.BackgroundTask, restricted to the kwargs dict that
stream_response mutates (func and args are never touched by this code). -/
structure BackgroundTask (A E : Type) where
  kwargs : Kwargs A E
deriving DecidableEq, Repr

/-- Observable behaviour of a chain executor on the transport: the body frames
its callback sent before the executor returned or raised, and its outcome.
Except.error e models `await self.chain_executor(send)` raising e. -/
structure ExecBehavior (A E : Type) where
  frames : List Frame
  result : Except E (Outputs A)

/-- A StreamingResponse object: configured status code and headers (from the
EventSourceResponse base class), optional background task, chain executor. -/
structure StreamingResponse (A E : Type) where
  status_code : Nat
  raw_headers : List (String × String)
  background : Option (BackgroundTask A E)
  chain_executor : ExecBehavior A E

/-- Result of one run of stream_response: the frames sent to the transport in
order, the background task after kwargs updates, and the exceptions passed to
logger.error (string formatting of the log line is external). -/
structure StreamResult (A E : Type) where
  frames : List Frame
  background : Option (BackgroundTask A E)
  log : List E

/-- StreamingResponse.stream_response. Sends the response-start frame, awaits
the chain executor inside try/except (so the executor's frames appear after
the start frame), on success attaches outputs to the background kwargs, on
exception logs it, attaches empty outputs and the error to the background
kwargs and sends one error-event frame with more_body = true; finally sends
the terminating empty-body frame unconditionally. Both branches return
Except.ok: the except clause catches the executor's exception. -/
def stream_response {A E : Type} (resp : StreamingResponse A E) :
    Except E (StreamResult A E) :=
  let startFrame : Frame := Frame.start resp.status_code resp.raw_headers
  let terminator : Frame := Frame.body (Body.raw "") false
  match resp.chain_executor.result with
  | Except.ok outs =>
      Except.ok
        { frames := startFrame :: (resp.chain_executor.frames ++ [terminator])
        , background := resp.background.map fun b =>
            { kwargs := dictSet b.kwargs "outputs" (KwVal.outputs outs) }
        , log := [] }
  | Except.error e =>
      Except.ok
        { frames := startFrame :: (resp.chain_executor.frames ++
            [Frame.body (Body.sse errorChunk) true, terminator])
        , background := resp.background.map fun b =>
            { kwargs := dictSet (dictSet b.kwargs "outputs" (KwVal.outputs []))
                "error" (KwVal.error e) }
        , log := [e] }

/-- An ASGI message on the receive side, restricted to its "type" key. -/
structure Message where
  type : String
deriving DecidableEq, Repr

/-- StreamingResponse.listen_for_disconnect. The receive channel is a stream
recv of messages indexed by arrival order; the loop is run with explicit fuel
starting at index i. It returns some prints (the lines written to stdout by
print) when the loop breaks within fuel steps, and none when the fuel is
exhausted before a disconnect message is seen. -/
def listen_for_disconnect (recv : Nat → Message) : Nat → Nat → Option (List String)
  | 0, _ => none
  | fuel + 1, i =>
      if (recv i).type = "http.disconnect" then some ["Client disconnected"]
      else listen_for_disconnect recv fuel (i + 1)

/-- Streaming mode of a registry callback constructor. -/
inductive CallbackKind where
  | plain
  | json
deriving DecidableEq, Repr

/-- Modelled from the spec: a callback instance from the registry
(`lanarky.callbacks`, absent from src/), "bound to an output transport
handle" plus the chain it observes and extra keyword options. -/
structure Callback (S K : Type) where
  kind : CallbackKind
  chain_id : Nat
  send : S
  kwargs : K
deriving DecidableEq, Repr

/-- Modelled from the spec: get_streaming_callback, the plain-text streaming
callback constructor of the registry, partially applied to the chain. -/
def get_streaming_callback {S K : Type} (chain_id : Nat) (send : S) (kw : K) :
    Callback S K :=
  { kind := CallbackKind.plain, chain_id := chain_id, send := send, kwargs := kw }

/-- Modelled from the spec: get_streaming_json_callback, the JSON streaming
callback constructor of the registry, partially applied to the chain. -/
def get_streaming_json_callback {S K : Type} (chain_id : Nat) (send : S) (kw : K) :
    Callback S K :=
  { kind := CallbackKind.json, chain_id := chain_id, send := send, kwargs := kw }

/-- A langchain Chain, restricted to what _create_chain_executor uses: an
identity (bound into default callbacks by partial application) and acall,
which takes inputs and the callbacks list. R is the abstract result of
awaiting chain.acall. -/
structure Chain (I S K R : Type) where
  chain_id : Nat
  acall : I → List (Callback S K) → R

/-- StreamingResponse._create_chain_executor (the leading underscore of the
source name is dropped). If no explicit callback is given, the constructor is
selected by as_json from the registry and partially applied to the chain; the
returned wrapper takes the transport handle and invokes chain.acall with the
inputs and a single callback constructed from the handle and callback_kwargs. -/
def create_chain_executor {I S K R : Type} (chain : Chain I S K R) (inputs : I)
    (as_json : Bool) (callback : Option (S → K → Callback S K))
    (callback_kwargs : K) : S → R :=
  let cb : S → K → Callback S K :=
    match callback with
    | some c => c
    | none => fun send kw =>
        (if as_json then get_streaming_json_callback
         else get_streaming_callback) chain.chain_id send kw
  fun send => chain.acall inputs [cb send callback_kwargs]

/-- The StreamingResponse object built by from_chain, restricted to the fields
from_chain itself sets (the remaining kwargs go to the base class). -/
structure ResponseFromChain (S R A E : Type) where
  chain_executor : S → R
  background : Option (BackgroundTask A E)

/-- StreamingResponse.from_chain: builds the executor via
_create_chain_executor and constructs the response object. -/
def from_chain {I S K R A E : Type} (chain : Chain I S K R) (inputs : I)
    (as_json : Bool) (background : Option (BackgroundTask A E))
    (callback : Option (S → K → Callback S K)) (callback_kwargs : K) :
    ResponseFromChain S R A E :=
  { chain_executor := create_chain_executor chain inputs as_json callback callback_kwargs
  , background := background }

/-! Helper lemmas (library facts about the embedded dictionary operations and
frame predicates; shared by the claim theorems). -/

theorem dictLookup_dictSet_self {V : Type} (d : List (String × V)) (k : String)
    (v : V) : dictLookup (dictSet d k v) k = some v := by
  induction d with
  | nil => simp [dictSet, dictLookup]
  | cons hd tl ih =>
      obtain ⟨k', v'⟩ := hd
      by_cases h : k' = k
      · simp [dictSet, dictLookup, h]
      · simp [dictSet, dictLookup, h, ih]

theorem dictLookup_dictSet_ne {V : Type} (d : List (String × V)) (k k' : String)
    (v : V) (hne : k' ≠ k) : dictLookup (dictSet d k v) k' = dictLookup d k' := by
  induction d with
  | nil => simp [dictSet, dictLookup, Ne.symm hne]
  | cons hd tl ih =>
      obtain ⟨k₀, v₀⟩ := hd
      by_cases h : k₀ = k
      · subst h
        simp [dictSet, dictLookup, Ne.symm hne]
      · simp [dictSet, dictLookup, h, ih]

theorem isTokenFrame_not_terminator {f : Frame} (h : isTokenFrame f = true) :
    isTerminator f = false := by
  cases f with
  | start s hd => rfl
  | body b more =>
      cases more with
      | false => simp [isTokenFrame] at h
      | true => simp [isTerminator]

theorem isTokenFrame_not_start {f : Frame} (h : isTokenFrame f = true) :
    isStartFrame f = false := by
  cases f with
  | start s hd => simp [isTokenFrame] at h
  | body b more => rfl

theorem isTokenFrame_not_errorEvent {f : Frame} (h : isTokenFrame f = true) :
    isErrorEventFrame f = false := by
  cases f with
  | start s hd => simp [isTokenFrame] at h
  | body b more =>
      cases more with
      | false => simp [isTokenFrame] at h
      | true =>
          simp [isTokenFrame] at h
          simp [isErrorEventFrame, h]

/-! Claim theorems. -/

/-- C4: for every StreamingResponse constructed with a non-None background
task, if the chain executor returns outputs without raising, then after
stream_response completes the background task's keyword arguments contain the
key "outputs" mapped to exactly the mapping the executor returned, and no
"error" key is added (the binding of "error", present or absent, is exactly
what it was before). -/
theorem spec_c4_background_outputs_on_success {A E : Type} (sc : Nat)
    (hs : List (String × String)) (bg : BackgroundTask A E) (fs : List Frame)
    (outs : Outputs A) :
    ∃ r, stream_response
        (⟨sc, hs, some bg, ⟨fs, Except.ok outs⟩⟩ : StreamingResponse A E)
      = Except.ok r ∧
    ∃ b, r.background = some b ∧
      dictLookup b.kwargs "outputs" = some (KwVal.outputs outs) ∧
      dictLookup b.kwargs "error" = dictLookup bg.kwargs "error" := by
  refine ⟨_, rfl, _, rfl, dictLookup_dictSet_self .., ?_⟩
  exact dictLookup_dictSet_ne _ _ _ _ (by decide)

/-- C5: for every StreamingResponse constructed with a non-None background
task, if the chain executor raises exception e, then after stream_response
completes the background task's keyword arguments include "outputs" mapped to
the empty mapping and "error" mapped to exactly the raised exception e. -/
theorem spec_c5_background_error_on_failure {A E : Type} (sc : Nat)
    (hs : List (String × String)) (bg : BackgroundTask A E) (fs : List Frame)
    (e : E) :
    ∃ r, stream_response
        (⟨sc, hs, some bg, ⟨fs, Except.error e⟩⟩ : StreamingResponse A E)
      = Except.ok r ∧
    ∃ b, r.background = some b ∧
      dictLookup b.kwargs "outputs" = some (KwVal.outputs ([] : Outputs A)) ∧
      dictLookup b.kwargs "error" = some (KwVal.error e) := by
  refine ⟨_, rfl, _, rfl, ?_, dictLookup_dictSet_self ..⟩
  rw [dictLookup_dictSet_ne _ _ _ _ (by decide)]
  exact dictLookup_dictSet_self ..

/-- C8: stream_response never propagates an exception raised by the chain
executor to its caller: for every response, including one whose executor
raised, stream_response returns Except.ok (the exception is caught inside and
the function continues to the error event and terminating frame). -/
theorem spec_c8_executor_exception_not_propagated {A E : Type}
    (resp : StreamingResponse A E) :
    ∃ r, stream_response resp = Except.ok r := by
  obtain ⟨sc, hs, bg, ⟨fs, res⟩⟩ := resp
  cases res with
  | ok outs => exact ⟨_, rfl⟩
  | error e => exact ⟨_, rfl⟩

/-- C6: when no explicit callback override is given, _create_chain_executor
selects the JSON streaming callback constructor if as_json is set and the
plain-text one otherwise, and the produced function, applied to a transport
handle, invokes chain.acall with the given inputs and a callbacks list
containing exactly one callback, constructed bound to that handle and the
extra keyword options. -/
theorem spec_c6_default_executor_invocation {I S K R : Type}
    (chain : Chain I S K R) (inputs : I) (as_json : Bool) (kw : K) (send : S) :
    create_chain_executor chain inputs as_json none kw send
      = chain.acall inputs
          [(if as_json then get_streaming_json_callback
            else get_streaming_callback) chain.chain_id send kw] ∧
    (get_streaming_json_callback chain.chain_id send kw).kind = CallbackKind.json ∧
    (get_streaming_callback chain.chain_id send kw).kind = CallbackKind.plain :=
  ⟨rfl, rfl, rfl⟩

/-- C9: when an explicit callback override is passed, the as_json flag has no
effect: the executors produced by _create_chain_executor with as_json = true
and as_json = false are the same function, and likewise the response objects
built by from_chain coincide. -/
theorem spec_c9_as_json_ignored_with_explicit_callback {I S K R A E : Type}
    (chain : Chain I S K R) (inputs : I) (c : S → K → Callback S K) (kw : K)
    (bg : Option (BackgroundTask A E)) :
    create_chain_executor chain inputs true (some c) kw
      = create_chain_executor chain inputs false (some c) kw ∧
    from_chain chain inputs true bg (some c) kw
      = from_chain chain inputs false bg (some c) kw :=
  ⟨rfl, rfl⟩

/-- C1: for every invocation of stream_response whose executor pushed only
token frames (the behaviour of the registry callbacks, modelled from the
spec), exactly one terminating frame — an http.response.body frame with empty
body and more_body = false — is sent to the transport, whether the chain
executor returned or raised. -/
theorem spec_c1_exactly_one_terminating_frame {A E : Type}
    (resp : StreamingResponse A E)
    (htok : ∀ f ∈ resp.chain_executor.frames, isTokenFrame f = true) :
    ∃ r, stream_response resp = Except.ok r ∧
      r.frames.countP isTerminator = 1 := by
  obtain ⟨sc, hs, bg, ⟨fs, res⟩⟩ := resp
  have hfs : fs.countP isTerminator = 0 :=
    List.countP_eq_zero.mpr fun f hf => by
      simp [isTokenFrame_not_terminator (htok f hf)]
  have h0 : isTerminator (Frame.start sc hs) = false := rfl
  have h1 : isTerminator (Frame.body (Body.raw "") false) = true := by decide
  have h2 : isTerminator (Frame.body (Body.sse errorChunk) true) = false := rfl
  cases res with
  | ok outs =>
      refine ⟨_, rfl, ?_⟩
      simp [List.countP_cons, List.countP_append, hfs, h0, h1]
  | error e =>
      refine ⟨_, rfl, ?_⟩
      simp [List.countP_cons, List.countP_append, hfs, h0, h1, h2]

/-- C1 witness: a run at a concrete response with one token frame and a
successful executor. -/
theorem spec_c1_exactly_one_terminating_frame_witness :
    (∀ f ∈ ([Frame.body (Body.raw "tok") true] : List Frame),
      isTokenFrame f = true) ∧
    ∃ r, stream_response
        (⟨200, [("content-type", "text/event-stream")], none,
          ⟨[Frame.body (Body.raw "tok") true],
           Except.ok [("response", "hi")]⟩⟩ : StreamingResponse String String)
      = Except.ok r ∧
      r.frames.countP isTerminator = 1 :=
  ⟨by decide, spec_c1_exactly_one_terminating_frame _ (by decide)⟩

/-- C2: for every execution of stream_response whose executor pushed only
token frames and returned without raising, the frames sent are exactly one
response-start frame carrying the configured status code and headers, then
the executor's body frames (each with more_body = true by the token-frame
hypothesis), then exactly one terminating empty body frame with
more_body = false, and no error-event frame is sent. -/
theorem spec_c2_success_frame_sequence {A E : Type} (sc : Nat)
    (hs : List (String × String)) (bg : Option (BackgroundTask A E))
    (fs : List Frame) (outs : Outputs A)
    (htok : ∀ f ∈ fs, isTokenFrame f = true) :
    ∃ r, stream_response
        (⟨sc, hs, bg, ⟨fs, Except.ok outs⟩⟩ : StreamingResponse A E)
      = Except.ok r ∧
    r.frames = Frame.start sc hs :: (fs ++ [Frame.body (Body.raw "") false]) ∧
    r.frames.countP isStartFrame = 1 ∧
    r.frames.countP isTerminator = 1 ∧
    r.frames.countP isErrorEventFrame = 0 := by
  have hterm : fs.countP isTerminator = 0 :=
    List.countP_eq_zero.mpr fun f hf => by
      simp [isTokenFrame_not_terminator (htok f hf)]
  have hstart : fs.countP isStartFrame = 0 :=
    List.countP_eq_zero.mpr fun f hf => by
      simp [isTokenFrame_not_start (htok f hf)]
  have herr : fs.countP isErrorEventFrame = 0 :=
    List.countP_eq_zero.mpr fun f hf => by
      simp [isTokenFrame_not_errorEvent (htok f hf)]
  refine ⟨_, rfl, rfl, ?_, ?_, ?_⟩
  · simp [List.countP_cons, List.countP_append, hstart, isStartFrame,
      isTerminator, isErrorEventFrame]
  · have h1 : isTerminator (Frame.body (Body.raw "") false) = true := by decide
    simp [List.countP_cons, List.countP_append, hterm, h1, isTerminator]
  · simp [List.countP_cons, List.countP_append, herr, isErrorEventFrame,
      isStartFrame]

/-- C2 witness: a successful run at a concrete response with two token
frames. -/
theorem spec_c2_success_frame_sequence_witness :
    (∀ f ∈ ([Frame.body (Body.raw "Hello") true,
             Frame.body (Body.raw " world") true] : List Frame),
      isTokenFrame f = true) ∧
    ∃ r, stream_response
        (⟨200, [("content-type", "text/event-stream")],
          some ⟨[]⟩,
          ⟨[Frame.body (Body.raw "Hello") true,
            Frame.body (Body.raw " world") true],
           Except.ok [("response", "Hello world")]⟩⟩ :
          StreamingResponse String String)
      = Except.ok r ∧
    r.frames = Frame.start 200 [("content-type", "text/event-stream")] ::
      ([Frame.body (Body.raw "Hello") true,
        Frame.body (Body.raw " world") true] ++
       [Frame.body (Body.raw "") false]) ∧
    r.frames.countP isStartFrame = 1 ∧
    r.frames.countP isTerminator = 1 ∧
    r.frames.countP isErrorEventFrame = 0 :=
  ⟨by decide, spec_c2_success_frame_sequence _ _ _ _ _ (by decide)⟩

/-- C3: for every execution of stream_response whose executor pushed only
token frames and then raised exception e, the sent sequence ends with exactly
one error-event frame with more_body = true — payload status_code 500, detail
"Internal Server Error", event type "error" — immediately before the
terminating frame; e is logged, and the frames are the same whatever
exception was raised (the exception's detail is not sent to the client). -/
theorem spec_c3_error_event_sequence {A E : Type} (sc : Nat)
    (hs : List (String × String)) (bg : Option (BackgroundTask A E))
    (fs : List Frame) (e : E)
    (htok : ∀ f ∈ fs, isTokenFrame f = true) :
    ∃ r, stream_response
        (⟨sc, hs, bg, ⟨fs, Except.error e⟩⟩ : StreamingResponse A E)
      = Except.ok r ∧
    r.frames = Frame.start sc hs ::
      (fs ++ [Frame.body (Body.sse errorChunk) true,
              Frame.body (Body.raw "") false]) ∧
    errorChunk.data.status_code = 500 ∧
    errorChunk.data.detail = "Internal Server Error" ∧
    errorChunk.event = "error" ∧
    isErrorEventFrame (Frame.body (Body.sse errorChunk) true) = true ∧
    r.frames.countP isErrorEventFrame = 1 ∧
    r.log = [e] ∧
    ∀ e' : E, ∃ r', stream_response
        (⟨sc, hs, bg, ⟨fs, Except.error e'⟩⟩ : StreamingResponse A E)
      = Except.ok r' ∧ r'.frames = r.frames := by
  have herr : fs.countP isErrorEventFrame = 0 :=
    List.countP_eq_zero.mpr fun f hf => by
      simp [isTokenFrame_not_errorEvent (htok f hf)]
  refine ⟨_, rfl, rfl, rfl, rfl, rfl, by decide, ?_, rfl, fun e' => ⟨_, rfl, rfl⟩⟩
  have h1 : isErrorEventFrame (Frame.body (Body.sse errorChunk) true) = true := by
    decide
  have h2 : isErrorEventFrame (Frame.start sc hs) = false := rfl
  have h3 : isErrorEventFrame (Frame.body (Body.raw "") false) = false := rfl
  simp [List.countP_cons, List.countP_append, herr, h1, h2, h3]

/-- C3 witness: a failing run at a concrete response with one token frame and
a raised exception. -/
theorem spec_c3_error_event_sequence_witness :
    (∀ f ∈ ([Frame.body (Body.raw "partial out") true] : List Frame),
      isTokenFrame f = true) ∧
    ∃ r, stream_response
        (⟨200, [], some ⟨[]⟩,
          ⟨[Frame.body (Body.raw "partial out") true],
           Except.error "boom"⟩⟩ : StreamingResponse String String)
      = Except.ok r ∧
    r.frames = Frame.start 200 [] ::
      ([Frame.body (Body.raw "partial out") true] ++
       [Frame.body (Body.sse errorChunk) true,
        Frame.body (Body.raw "") false]) ∧
    errorChunk.data.status_code = 500 ∧
    errorChunk.data.detail = "Internal Server Error" ∧
    errorChunk.event = "error" ∧
    isErrorEventFrame (Frame.body (Body.sse errorChunk) true) = true ∧
    r.frames.countP isErrorEventFrame = 1 ∧
    r.log = ["boom"] ∧
    ∀ e' : String, ∃ r', stream_response
        (⟨200, [], some ⟨[]⟩,
          ⟨[Frame.body (Body.raw "partial out") true],
           Except.error e'⟩⟩ : StreamingResponse String String)
      = Except.ok r' ∧ r'.frames = r.frames :=
  ⟨by decide, spec_c3_error_event_sequence _ _ _ _ _ (by decide)⟩

/-! Helper lemmas for the disconnect listener. -/

theorem listen_some_implies_disconnect {recv : Nat → Message} :
    ∀ fuel i, (listen_for_disconnect recv fuel i).isSome = true →
      ∃ n, (recv n).type = "http.disconnect" := by
  intro fuel
  induction fuel with
  | zero => intro i h; simp [listen_for_disconnect] at h
  | succ n ih =>
      intro i h
      by_cases hd : (recv i).type = "http.disconnect"
      · exact ⟨i, hd⟩
      · rw [listen_for_disconnect, if_neg hd] at h
        exact ih (i + 1) h

theorem listen_reaches_disconnect {recv : Nat → Message} :
    ∀ n i, (recv (i + n)).type = "http.disconnect" →
      (listen_for_disconnect recv (n + 1) i).isSome = true := by
  intro n
  induction n with
  | zero =>
      intro i h
      rw [listen_for_disconnect, if_pos (by simpa using h)]
      rfl
  | succ m ih =>
      intro i h
      by_cases hd : (recv i).type = "http.disconnect"
      · rw [listen_for_disconnect, if_pos hd]; rfl
      · rw [listen_for_disconnect, if_neg hd]
        refine ih (i + 1) ?_
        have he : i + 1 + m = i + (m + 1) := by omega
        rw [he]
        exact h

/-- C7 counterexample: on a receive stream whose first message already is a
disconnect notification, the listener exits but prints a line to standard
output — a side effect — so it does not exit silently with no side effect. -/
theorem spec_c7_counterexample :
    listen_for_disconnect (fun _ => { type := "http.disconnect" }) 1 0
      = some ["Client disconnected"] ∧
    (["Client disconnected"] : List String) ≠ [] := by
  constructor
  · decide
  · decide

/-- C7 (amended): the disconnect listener awaits messages from the input side
and, when it observes a message of type "http.disconnect", exits after
printing the diagnostic line "Client disconnected" to standard output — its
only side effect; it sends nothing to the transport and does not cancel
in-flight chain execution. -/
theorem spec_c7_disconnect_exit_prints {recv : Nat → Message} {fuel i : Nat}
    {prints : List String}
    (h : listen_for_disconnect recv fuel i = some prints) :
    prints = ["Client disconnected"] := by
  induction fuel generalizing i with
  | zero => simp [listen_for_disconnect] at h
  | succ n ih =>
      by_cases hd : (recv i).type = "http.disconnect"
      · rw [listen_for_disconnect, if_pos hd] at h
        exact (Option.some.injEq _ _ ▸ h).symm
      · rw [listen_for_disconnect, if_neg hd] at h
        exact ih h

/-- C7 witness: on a stream with one request message before the disconnect,
the listener skips the first message, exits on the second, and its print log
is exactly the diagnostic line. -/
theorem spec_c7_disconnect_exit_prints_witness :
    listen_for_disconnect
      (fun n => if n = 0 then { type := "http.request" }
                else { type := "http.disconnect" }) 2 0
      = some ["Client disconnected"] ∧
    (["Client disconnected"] : List String) = ["Client disconnected"] := by
  refine ⟨by decide, @spec_c7_disconnect_exit_prints
    (fun n => if n = 0 then { type := "http.request" }
              else { type := "http.disconnect" })
    2 0 ["Client disconnected"] (by decide)⟩

/-- C10: listen_for_disconnect terminates if and only if the received message
stream eventually contains a message whose type is "http.disconnect": some
finite fuel makes the loop break exactly when such a message exists, and with
no disconnect message no amount of fuel terminates the loop (it skips every
message of any other type and loops forever). -/
theorem spec_c10_terminates_iff_disconnect (recv : Nat → Message) :
    (∃ fuel, (listen_for_disconnect recv fuel 0).isSome = true) ↔
    (∃ n, (recv n).type = "http.disconnect") := by
  constructor
  · rintro ⟨fuel, h⟩
    exact listen_some_implies_disconnect fuel 0 h
  · rintro ⟨n, h⟩
    exact ⟨n + 1, listen_reaches_disconnect n 0 (by simpa using h)⟩

end Lanarky
